import Mathlib

/-!
Verification of the Process-AI browser application: a shallow embedding of
the data model (src/types.ts), the oracle service adapters
(src/services/geminiService.ts) and the application state handlers
(src/App.tsx, src/components/ComparisonView.tsx), with theorems settling
the specification claims about them.

The external LLM oracle is modelled as an explicit input: each service
function receives the (already transport-level) reply it would have parsed,
so that the validation and normalization logic of the code is captured
exactly while the network itself stays abstract.  Nondeterministic fresh
identifiers (crypto.randomUUID) are modelled by an explicit generator
passed as a function from call index to string.
-/

namespace ProcessAI

/-- Metric categories, from the category union type in src/types.ts. -/
inductive MetricCategory
  | efficiency
  | waste
  | yield
  | throughput
  | other
deriving DecidableEq, Repr

/-- Log statuses, from the status union type in src/types.ts. -/
inductive LogStatus
  | success
  | warning
  | failure
deriving DecidableEq, Repr

/-- Simulation run type, from src/types.ts. -/
inductive RunType
  | BASELINE
  | OPTIMIZED
deriving DecidableEq, Repr

/-- Chat message role, from src/types.ts. -/
inductive ChatRole
  | user
  | model
deriving DecidableEq, Repr

/-- ProcessStep from src/types.ts.  The conditions field is optional in the
source; every constructor in the code supplies a string (the import parser
defaults it to the empty string), so it is embedded as a plain string. -/
structure ProcessStep where
  id : String
  name : String
  description : String
  inputs : String
  conditions : String
deriving DecidableEq, Repr

/-- SimulationMetric from src/types.ts; the numeric value is embedded as a
rational. -/
structure SimMetric where
  name : String
  value : ℚ
  unit : String
  category : MetricCategory
deriving DecidableEq, Repr

/-- SimulationLog from src/types.ts. -/
structure SimLog where
  stepId : String
  stepName : String
  outcome : String
  details : String
  status : LogStatus
deriving DecidableEq, Repr

/-- SimulationResult from src/types.ts; the Date.now timestamp is embedded
as an integer. -/
structure SimulationResult where
  id : String
  timestamp : Int
  type : RunType
  metrics : List SimMetric
  logs : List SimLog
  summary : String
  assumptions : List String
deriving DecidableEq, Repr

/-- ChatMessage from src/types.ts. -/
structure ChatMessage where
  role : ChatRole
  text : String
  isOptimizedProposal : Bool
  proposedProcess : Option (List ProcessStep)
deriving DecidableEq, Repr

/-- JavaScript `v || d` on an optional string: undefined and the empty
string are falsy and fall through to the default. -/
def jsOrStr (v : Option String) (d : String) : String :=
  match v with
  | none => d
  | some s => if s = "" then d else s

/-- JavaScript `v || d` on a string: the empty string is falsy. -/
def jsOr (v d : String) : String :=
  if v = "" then d else v

/-- JavaScript `v || d` on an optional number: undefined and 0 are falsy. -/
def jsOrRat (v : Option ℚ) (d : ℚ) : ℚ :=
  match v with
  | none => d
  | some x => if x = 0 then d else x

/-- Errors thrown by the service functions in src/services/geminiService.ts,
under the names the specification gives them: `oracleUnavailable` is the
"API Key is missing" throw, `noResponse` is the "No response from AI" throw,
and `malformedResponse` is a JSON.parse failure on the oracle payload. -/
inductive OracleError
  | oracleUnavailable
  | noResponse
  | malformedResponse
deriving DecidableEq, Repr

/-- The transport-level reply from the oracle, as each service function sees
it: no text at all, text that fails JSON parsing, or a parsed payload. -/
inductive OracleReply (α : Type)
  | noText
  | unparseable
  | parsed (payload : α)
deriving DecidableEq, Repr

/-- The metric instruction simulateProcess embeds in its prompt: the
required-names wording when referenceMetrics is present and non-empty,
otherwise the standard-KPI wording. -/
inductive MetricInstruction
  | requireNames (names : List String)
  | standardKPIs
deriving DecidableEq, Repr

/-- The prompt branch of simulateProcess: referenceMetrics non-empty picks
the required-names instruction. -/
def metricInstruction (referenceMetrics : Option (List String)) : MetricInstruction :=
  match referenceMetrics with
  | some names => if 0 < names.length then .requireNames names else .standardKPIs
  | none => .standardKPIs

/-- The request simulateProcess constructs and sends to the oracle. -/
structure SimRequest where
  processName : String
  steps : List ProcessStep
  instruction : MetricInstruction
deriving DecidableEq, Repr

/-- The parsed JSON payload of a simulation response, per the response
schema in simulateProcess. -/
structure SimPayload where
  metrics : List SimMetric
  logs : List SimLog
  summary : String
  assumptions : List String
deriving DecidableEq, Repr

deriving instance DecidableEq for Except

/-- The observable outcome of one simulateProcess call: the request it
constructed (none when it threw before building one) and its result. -/
structure SimCall where
  request : Option SimRequest
  result : Except OracleError SimulationResult
deriving DecidableEq, Repr

/-- simulateProcess from src/services/geminiService.ts.  Throws when the
key is empty, before constructing any request; otherwise builds the request
(reference metric names go only into the prompt instruction), and maps the
oracle reply to an error or to a result stamped with a fresh id, the
current timestamp and the requested run type.  The parsed payload metrics
are returned verbatim: the function performs no validation against
referenceMetrics. -/
def simulateProcess (apiKey : String) (processName : String)
    (steps : List ProcessStep) (runType : RunType)
    (referenceMetrics : Option (List String))
    (reply : OracleReply SimPayload) (freshId : String) (now : Int) : SimCall :=
  if apiKey = "" then ⟨none, .error .oracleUnavailable⟩
  else
    let req : SimRequest := ⟨processName, steps, metricInstruction referenceMetrics⟩
    match reply with
    | .noText => ⟨some req, .error .noResponse⟩
    | .unparseable => ⟨some req, .error .malformedResponse⟩
    | .parsed data =>
        ⟨some req,
         .ok { id := freshId, timestamp := now, type := runType,
               metrics := data.metrics, logs := data.logs,
               summary := data.summary, assumptions := data.assumptions }⟩

/-- A raw step as parsed from the oracle reply to parseProcessDescription:
id, inputs and conditions may be absent. -/
structure RawStep where
  id : Option String
  name : String
  description : String
  inputs : Option String
  conditions : Option String
deriving DecidableEq, Repr

/-- The per-step normalization in parseProcessDescription: a missing or
empty id is replaced by the given fresh identifier, missing inputs default
to "None", missing conditions to the empty string. -/
def normalizeStep (freshId : String) (s : RawStep) : ProcessStep :=
  { id := jsOrStr s.id freshId
    name := s.name
    description := s.description
    inputs := jsOrStr s.inputs "None"
    conditions := jsOrStr s.conditions "" }

/-- The steps.map of parseProcessDescription, with the fresh-id generator
indexed by position (each potential crypto.randomUUID call site gets the
generator value at its index). -/
def normalizeSteps (gen : Nat → String) : Nat → List RawStep → List ProcessStep
  | _, [] => []
  | i, s :: rest => normalizeStep (gen i) s :: normalizeSteps gen (i + 1) rest

/-- parseProcessDescription from src/services/geminiService.ts: throws on a
missing key, maps transport failures to errors, and normalizes the parsed
step array. -/
def parseProcessDescription (apiKey : String) (gen : Nat → String)
    (reply : OracleReply (List RawStep)) : Except OracleError (List ProcessStep) :=
  if apiKey = "" then .error .oracleUnavailable
  else
    match reply with
    | .noText => .error .noResponse
    | .unparseable => .error .malformedResponse
    | .parsed steps => .ok (normalizeSteps gen 0 steps)

/-- The id the oracle effectively supplied for a raw step: present and
non-empty, hence kept verbatim by normalizeStep. -/
def suppliedId (s : RawStep) : Option String :=
  match s.id with
  | none => none
  | some i => if i = "" then none else some i

/-- All oracle-supplied (kept-verbatim) ids of a raw step list. -/
def suppliedIds (l : List RawStep) : List String :=
  l.filterMap suppliedId

/-- The three workspace tabs of src/App.tsx. -/
inductive Tab
  | build
  | results
  | compare
deriving DecidableEq, Repr

/-- The relevant state of the App component in src/App.tsx. -/
structure AppState where
  apiKey : String
  showApiKeyModal : Bool
  activeTab : Tab
  processName : String
  steps : List ProcessStep
  baselineResult : Option SimulationResult
  optimizedResult : Option SimulationResult
  chatHistory : List ChatMessage
  isSimulating : Bool
deriving DecidableEq, Repr

/-- The useState defaults of the App component. -/
def initialAppState : AppState :=
  { apiKey := ""
    showApiKeyModal := false
    activeTab := .build
    processName := "My Process"
    steps := []
    baselineResult := none
    optimizedResult := none
    chatHistory := []
    isSimulating := false }

/-- The persisted snapshot written under STORAGE_KEY by the save effect of
src/App.tsx: the five fields, JSON-serialized.  The serialization itself is
faithful on these values, so the durable record is embedded as the snapshot
value directly (none models an absent record). -/
structure Snapshot where
  processName : String
  steps : List ProcessStep
  baselineResult : Option SimulationResult
  optimizedResult : Option SimulationResult
  chatHistory : List ChatMessage
deriving DecidableEq, Repr

/-- The save effect of src/App.tsx: serializes the five fields. -/
def saveState (s : AppState) : Snapshot :=
  ⟨s.processName, s.steps, s.baselineResult, s.optimizedResult, s.chatHistory⟩

/-- The load effect of src/App.tsx: with no stored record the state is left
as is; otherwise each field is restored, the process name through the
JavaScript default `parsed.processName || "My Process"` (so an empty stored
name falls back to the default), steps and chat through `|| []` (an empty
array is truthy, hence restored verbatim), and the two results directly. -/
def loadState (stored : Option Snapshot) (s : AppState) : AppState :=
  match stored with
  | none => s
  | some parsed =>
      { s with
        processName := jsOr parsed.processName "My Process"
        steps := parsed.steps
        baselineResult := parsed.baselineResult
        optimizedResult := parsed.optimizedResult
        chatHistory := parsed.chatHistory }

/-- handleReset from src/App.tsx: on a confirmed prompt, sets the name to
"New Process", clears steps, both results and the chat history, removes the
stored record and switches to the build tab; otherwise nothing changes. -/
def handleReset (confirmed : Bool) (s : AppState) (store : Option Snapshot) :
    AppState × Option Snapshot :=
  if confirmed then
    ({ s with
        processName := "New Process"
        steps := []
        baselineResult := none
        optimizedResult := none
        chatHistory := []
        activeTab := .build }, none)
  else (s, store)

/-- The outcome of the awaited simulateProcess call inside a handler:
either a resolved SimulationResult or a rejection. -/
inductive SimOutcome
  | success (r : SimulationResult)
  | failure
deriving DecidableEq, Repr

/-- The argument tuple a handler passes to simulateProcess. -/
structure SimulateArgs where
  apiKey : String
  processName : String
  steps : List ProcessStep
  runType : RunType
  referenceMetrics : Option (List String)
deriving DecidableEq, Repr

/-- The referenceMetrics argument handleApplyOptimization computes: the
baseline metric names when a baseline exists, otherwise undefined. -/
def referenceMetricsOf (s : AppState) : Option (List String) :=
  s.baselineResult.map (fun r => r.metrics.map SimMetric.name)

/-- handleRunSimulation from src/App.tsx.  Returns the next state together
with the argument tuple of the simulateProcess call it issued (none when it
returned before calling).  Empty steps: immediate return, nothing issued.
Missing key: the modal is shown, nothing issued.  Otherwise the call is
issued with run type BASELINE and no reference metrics; on success the
baseline slot is overwritten, and the busy flag is cleared either way. -/
def handleRunSimulation (s : AppState) (outcome : SimOutcome) :
    AppState × Option SimulateArgs :=
  if s.steps = [] then (s, none)
  else if s.apiKey = "" then ({ s with showApiKeyModal := true }, none)
  else
    let args : SimulateArgs := ⟨s.apiKey, s.processName, s.steps, .BASELINE, none⟩
    let s1 := { s with isSimulating := true, activeTab := .results }
    match outcome with
    | .success r =>
        ({ s1 with baselineResult := some r, isSimulating := false }, some args)
    | .failure => ({ s1 with isSimulating := false }, some args)

/-- handleApplyOptimization from src/App.tsx.  Missing key: the modal is
shown, nothing else happens.  Otherwise the steps are replaced by the
proposal first, then the OPTIMIZED call is issued with the baseline metric
names as reference; on success the optimized slot is overwritten and, when
a baseline existed, the view switches to compare; on failure only the busy
flag is cleared, leaving the replaced steps in place. -/
def handleApplyOptimization (s : AppState) (newSteps : List ProcessStep)
    (outcome : SimOutcome) : AppState × Option SimulateArgs :=
  if s.apiKey = "" then ({ s with showApiKeyModal := true }, none)
  else
    let args : SimulateArgs :=
      ⟨s.apiKey, s.processName, newSteps, .OPTIMIZED, referenceMetricsOf s⟩
    let s1 := { s with steps := newSteps, isSimulating := true, activeTab := .results }
    match outcome with
    | .success r =>
        let s2 := { s1 with optimizedResult := some r }
        let s3 := if s.baselineResult.isSome then { s2 with activeTab := .compare } else s2
        ({ s3 with isSimulating := false }, some args)
    | .failure => ({ s1 with isSimulating := false }, some args)

/-- The simulationResult prop src/App.tsx passes to the ChatPanel (and the
result the SimulationViewer shows): `optimizedResult || baselineResult`. -/
def simulationContextOf (s : AppState) : Option SimulationResult :=
  match s.optimizedResult with
  | some r => some r
  | none => s.baselineResult

/-- The first metric of a result whose name matches, per
`metrics.find(m => m.name === name)`. -/
def findMetric (r : SimulationResult) (nm : String) : Option SimMetric :=
  r.metrics.find? (fun m => m.name = nm)

/-- The numeric value getDelta reads for one side:
`metrics.find(...)?.value || 0`. -/
def findValue (r : SimulationResult) (nm : String) : ℚ :=
  jsOrRat ((findMetric r nm).map SimMetric.value) 0

/-- getDelta from src/components/ComparisonView.tsx: 0 when the baseline
value is 0 (or the metric is absent from the baseline), otherwise the
relative change in percent. -/
def getDelta (baseline optimized : SimulationResult) (metricName : String) : ℚ :=
  let b := findValue baseline metricName
  let o := findValue optimized metricName
  if b = 0 then 0 else ((o - b) / b) * 100

/-- One entry of the chart data in src/components/ComparisonView.tsx. -/
structure ChartEntry where
  name : String
  baselineValue : ℚ
  optimizedValue : ℚ
  unit : String
deriving DecidableEq, Repr

/-- The chart entry built from one baseline metric: the matching optimized
value, or 0 when no optimized metric carries the name. -/
def chartEntryOf (optimized : SimulationResult) (bMetric : SimMetric) : ChartEntry :=
  match optimized.metrics.find? (fun m => m.name = bMetric.name) with
  | some oMetric => ⟨bMetric.name, bMetric.value, oMetric.value, bMetric.unit⟩
  | none => ⟨bMetric.name, bMetric.value, 0, bMetric.unit⟩

/-- chartData from src/components/ComparisonView.tsx: one entry per
baseline metric. -/
def chartData (baseline optimized : SimulationResult) : List ChartEntry :=
  baseline.metrics.map (chartEntryOf optimized)

/-- One row of the comparison table in src/components/ComparisonView.tsx;
the optimized cells are optional because the row renders
`optMetric?.value` and `optMetric?.unit`. -/
structure TableRow where
  metricName : String
  baselineValue : ℚ
  baselineUnit : String
  optimizedValue : Option ℚ
  optimizedUnit : Option String
  delta : ℚ
deriving DecidableEq, Repr

/-- The table body of ComparisonView: one row per baseline metric, with the
optimized metric looked up by name and the delta from getDelta. -/
def tableRows (baseline optimized : SimulationResult) : List TableRow :=
  baseline.metrics.map (fun metric =>
    let optMetric := optimized.metrics.find? (fun m => m.name = metric.name)
    ⟨metric.name, metric.value, metric.unit, optMetric.map SimMetric.value,
     optMetric.map SimMetric.unit, getDelta baseline optimized metric.name⟩)

/-- The latest-available simulation as the specification words it: baseline
or optimized, whichever of the two is more recent by timestamp (most recent
wins, ties resolved to the optimized result).  Stated from the
specification for comparison with the implemented simulationContextOf. -/
def specLatestSimulation (b o : Option SimulationResult) : Option SimulationResult :=
  match b, o with
  | none, o => o
  | some rb, none => some rb
  | some rb, some ro => if rb.timestamp ≤ ro.timestamp then some ro else some rb

/-- The fresh identifiers the generator yields for n consecutive call
sites starting at index i. -/
def genIds (gen : Nat → String) : Nat → Nat → List String
  | _, 0 => []
  | i, n + 1 => gen i :: genIds gen (i + 1) n

/-- Sample metric fixture. -/
def yieldMetric : SimMetric := ⟨"Yield", 4, "pct", .yield⟩

/-- Sample metric fixture. -/
def costMetric : SimMetric := ⟨"Cost", 5, "USD", .other⟩

/-- Sample metric fixture. -/
def wasteMetric : SimMetric := ⟨"Waste", 3, "kg", .waste⟩

/-- Sample baseline result fixture: carries Yield and Waste, timestamp 2. -/
def sampleBaseline : SimulationResult :=
  ⟨"base-1", 2, .BASELINE, [yieldMetric, wasteMetric], [], "baseline summary", []⟩

/-- Sample optimized result fixture: carries Yield and Cost but no Waste,
and an older timestamp 1 than the sample baseline. -/
def sampleOptimized : SimulationResult :=
  ⟨"opt-1", 1, .OPTIMIZED, [⟨"Yield", 5, "pct", .yield⟩, costMetric], [], "optimized summary", []⟩

/-- Sample step fixture. -/
def sampleStep : ProcessStep := ⟨"s1", "Cut", "Cut sheet", "Steel", ""⟩

/-- Sample app state fixture: a configured key, one step, and both results
present with the optimized one older than the baseline. -/
def staleOptimizedState : AppState :=
  { initialAppState with
      apiKey := "k"
      steps := [sampleStep]
      baselineResult := some sampleBaseline
      optimizedResult := some sampleOptimized }

/-!  Theorems settling the claims. -/

/-- Claim C5: for a metric name found in both the baseline and the
optimized result, the comparison delta is 0 when the baseline value is 0,
and otherwise equals ((optimized - baseline) / baseline) * 100. -/
theorem getDelta_of_present_both (b o : SimulationResult) (nm : String)
    (bm om : SimMetric)
    (hb : findMetric b nm = some bm) (ho : findMetric o nm = some om) :
    getDelta b o nm =
      if bm.value = 0 then 0 else ((om.value - bm.value) / bm.value) * 100 := by
  unfold getDelta findValue
  rw [hb, ho]
  by_cases h1 : bm.value = 0 <;> by_cases h2 : om.value = 0 <;>
    simp [jsOrRat, h1, h2]

/-- Witness for C5 on the sample results: for Yield (baseline 4, optimized
5) the delta evaluates per the formula. -/
theorem getDelta_of_present_both_witness :
    getDelta sampleBaseline sampleOptimized "Yield" =
      if yieldMetric.value = 0 then 0
      else (((5 : ℚ) - yieldMetric.value) / yieldMetric.value) * 100 :=
  getDelta_of_present_both sampleBaseline sampleOptimized "Yield"
    yieldMetric ⟨"Yield", 5, "pct", .yield⟩ (by decide) (by decide)

/-- Claim C7: with no API credential configured, simulateProcess fails with
OracleUnavailable and constructs no request, whatever the other arguments
and whatever the oracle would have replied. -/
theorem simulateProcess_no_credential (apiKey processName : String)
    (steps : List ProcessStep) (runType : RunType)
    (referenceMetrics : Option (List String)) (reply : OracleReply SimPayload)
    (freshId : String) (now : Int) (h : apiKey = "") :
    simulateProcess apiKey processName steps runType referenceMetrics reply
        freshId now =
      ⟨none, .error .oracleUnavailable⟩ := by
  simp [simulateProcess, h]

/-- Witness for C7: a concrete call with the empty key yields
OracleUnavailable with no request constructed. -/
theorem simulateProcess_no_credential_witness :
    simulateProcess "" "My Process" [sampleStep] .BASELINE none
        (.parsed ⟨[yieldMetric], [], "s", []⟩) "r1" 7 =
      ⟨none, .error .oracleUnavailable⟩ :=
  simulateProcess_no_credential "" "My Process" [sampleStep] .BASELINE none
    (.parsed ⟨[yieldMetric], [], "s", []⟩) "r1" 7 rfl

/-- Claim C1 counterexample: a call requiring reference name Yield, whose
parsed reply carries only a Cost metric, is accepted verbatim: the result
is ok, its metric-name set does not contain Yield, and no MalformedResponse
is raised. -/
theorem simulate_missing_reference_accepted :
    (simulateProcess "k" "P" [sampleStep] .OPTIMIZED (some ["Yield"])
        (.parsed ⟨[costMetric], [], "s", []⟩) "r1" 9).result =
      .ok ⟨"r1", 9, .OPTIMIZED, [costMetric], [], "s", []⟩ ∧
    "Yield" ∉ ([costMetric].map SimMetric.name) ∧
    (simulateProcess "k" "P" [sampleStep] .OPTIMIZED (some ["Yield"])
        (.parsed ⟨[costMetric], [], "s", []⟩) "r1" 9).result ≠
      .error .malformedResponse := by
  refine ⟨by decide, by decide, by decide⟩

/-- Claim C1 amended: a non-empty referenceMetricNames list is embedded
only in the request prompt as the required-names instruction; the response
validator performs no superset check, so any parsed payload is accepted
with its metrics verbatim, even when reference names are missing. -/
theorem simulate_reference_only_in_prompt (apiKey processName : String)
    (steps : List ProcessStep) (runType : RunType) (names : List String)
    (data : SimPayload) (freshId : String) (now : Int)
    (hk : apiKey ≠ "") (hn : names ≠ []) :
    (simulateProcess apiKey processName steps runType (some names)
        (.parsed data) freshId now).request =
      some ⟨processName, steps, .requireNames names⟩ ∧
    (simulateProcess apiKey processName steps runType (some names)
        (.parsed data) freshId now).result =
      .ok ⟨freshId, now, runType, data.metrics, data.logs, data.summary,
           data.assumptions⟩ := by
  have hlen : 0 < names.length := List.length_pos.mpr hn
  refine ⟨?_, ?_⟩ <;> simp [simulateProcess, metricInstruction, hk, hlen]

/-- Witness for the amended C1 on a concrete call: the required-names
instruction is built and the payload is accepted verbatim. -/
theorem simulate_reference_only_in_prompt_witness :
    (simulateProcess "k" "P" [sampleStep] .OPTIMIZED (some ["Yield"])
        (.parsed ⟨[costMetric], [], "s", []⟩) "r2" 9).request =
      some ⟨"P", [sampleStep], .requireNames ["Yield"]⟩ ∧
    (simulateProcess "k" "P" [sampleStep] .OPTIMIZED (some ["Yield"])
        (.parsed ⟨[costMetric], [], "s", []⟩) "r2" 9).result =
      .ok ⟨"r2", 9, .OPTIMIZED, [costMetric], [], "s", []⟩ :=
  simulate_reference_only_in_prompt "k" "P" [sampleStep] .OPTIMIZED ["Yield"]
    ⟨[costMetric], [], "s", []⟩ "r2" 9 (by decide) (by decide)

/-- Claim C3 counterexample: after a confirmed reset the process name is
"New Process", not the "My Process" default the claim requires of all five
fields. -/
theorem reset_name_not_default :
    (handleReset true initialAppState (some (saveState initialAppState))).1.processName ≠
      "My Process" := by
  decide

/-- Claim C3 amended: a confirmed reset clears steps, both results and the
chat transcript to their defaults, removes the durable record, but sets the
process name to "New Process" rather than the "My Process" load default;
a subsequent load with the record absent leaves the default initial state,
whose name is "My Process". -/
theorem reset_clears_state (s : AppState) (store : Option Snapshot) :
    (handleReset true s store).1.processName = "New Process" ∧
    (handleReset true s store).1.steps = [] ∧
    (handleReset true s store).1.baselineResult = none ∧
    (handleReset true s store).1.optimizedResult = none ∧
    (handleReset true s store).1.chatHistory = [] ∧
    (handleReset true s store).2 = none ∧
    loadState (handleReset true s store).2 initialAppState = initialAppState ∧
    initialAppState.processName = "My Process" ∧
    initialAppState.steps = [] ∧
    initialAppState.baselineResult = none ∧
    initialAppState.optimizedResult = none ∧
    initialAppState.chatHistory = [] := by
  refine ⟨rfl, rfl, rfl, rfl, rfl, rfl, rfl, rfl, rfl, rfl, rfl, rfl⟩

/-- Claim C4 counterexample: the snapshot whose process name is the empty
string does not round-trip: the load defaults the empty name to
"My Process". -/
theorem save_load_not_roundtrip :
    saveState
        (loadState
          (some (saveState ⟨"", false, .build, "", [], none, none, [], false⟩))
          initialAppState) ≠
      saveState ⟨"", false, .build, "", [], none, none, [], false⟩ := by
  decide

/-- Claim C4 amended: saving a snapshot and loading it reproduces all five
fields exactly, provided the process name is non-empty (an empty name is
falsy in the load expression and falls back to "My Process"). -/
theorem save_load_roundtrip (s s0 : AppState) (h : s.processName ≠ "") :
    saveState (loadState (some (saveState s)) s0) = saveState s := by
  simp [saveState, loadState, jsOr, h]

/-- Witness for the amended C4: the sample state round-trips through the
durable record. -/
theorem save_load_roundtrip_witness :
    saveState (loadState (some (saveState staleOptimizedState)) initialAppState) =
      saveState staleOptimizedState :=
  save_load_roundtrip staleOptimizedState initialAppState (by decide)

/-- Claim C6 counterexample: with a baseline whose timestamp 2 is more
recent than the optimized timestamp 1, the context handed to the chat
panel is still the optimized result, not the most recent one. -/
theorem context_not_most_recent :
    simulationContextOf staleOptimizedState = some sampleOptimized ∧
    specLatestSimulation staleOptimizedState.baselineResult
        staleOptimizedState.optimizedResult =
      some sampleBaseline ∧
    simulationContextOf staleOptimizedState ≠
      specLatestSimulation staleOptimizedState.baselineResult
        staleOptimizedState.optimizedResult := by
  refine ⟨by decide, by decide, by decide⟩

/-- Claim C6 amended: the simulation context is the optimized result
whenever one exists and the baseline otherwise; this coincides with the
most-recent-wins rule exactly under the extra assumption that the optimized
result is at least as recent as the baseline, so a baseline re-run after an
optimization hands the chat the stale optimized result. -/
theorem context_prefers_optimized (s : AppState)
    (h : ∀ rb ro, s.baselineResult = some rb → s.optimizedResult = some ro →
      rb.timestamp ≤ ro.timestamp) :
    simulationContextOf s =
      specLatestSimulation s.baselineResult s.optimizedResult := by
  cases ho : s.optimizedResult with
  | none =>
      cases hb : s.baselineResult <;>
        simp [simulationContextOf, specLatestSimulation, hb, ho]
  | some ro =>
      cases hb : s.baselineResult with
      | none => simp [simulationContextOf, specLatestSimulation, hb, ho]
      | some rb =>
          simp [simulationContextOf, specLatestSimulation, hb, ho, h rb ro hb ho]

/-- Witness for the amended C6: with only a baseline present the context is
that baseline, matching most-recent-wins. -/
theorem context_prefers_optimized_witness :
    simulationContextOf
        { initialAppState with baselineResult := some sampleBaseline } =
      specLatestSimulation (some sampleBaseline) none :=
  context_prefers_optimized
    { initialAppState with baselineResult := some sampleBaseline }
    (by intro rb ro h1 h2; cases h2)

/-- Claim C8: with a credential configured, applying an optimization
proposal replaces the step list before the OPTIMIZED call (the steps equal
the proposal for every outcome, and the issued call carries run type
OPTIMIZED with the baseline names as reference); when that call fails the
steps stay replaced while both result slots are unchanged. -/
theorem apply_optimization_not_atomic (s : AppState)
    (newSteps : List ProcessStep) (h : s.apiKey ≠ "") :
    (∀ outcome, (handleApplyOptimization s newSteps outcome).1.steps = newSteps) ∧
    (handleApplyOptimization s newSteps .failure).2 =
      some ⟨s.apiKey, s.processName, newSteps, .OPTIMIZED, referenceMetricsOf s⟩ ∧
    (handleApplyOptimization s newSteps .failure).1.baselineResult =
      s.baselineResult ∧
    (handleApplyOptimization s newSteps .failure).1.optimizedResult =
      s.optimizedResult := by
  refine ⟨fun outcome => ?_, ?_, ?_, ?_⟩
  · cases outcome with
    | success r =>
        simp only [handleApplyOptimization, if_neg h]
        split <;> rfl
    | failure => simp [handleApplyOptimization, h]
  · simp [handleApplyOptimization, h]
  · simp [handleApplyOptimization, h]
  · simp [handleApplyOptimization, h]

/-- Witness for C8: applying a proposal to the sample state with a failing
OPTIMIZED call leaves the proposal in place and both result slots as they
were. -/
theorem apply_optimization_not_atomic_witness :
    (handleApplyOptimization staleOptimizedState [sampleStep] .failure).1.steps =
      [sampleStep] ∧
    (handleApplyOptimization staleOptimizedState [sampleStep] .failure).1.baselineResult =
      staleOptimizedState.baselineResult ∧
    (handleApplyOptimization staleOptimizedState [sampleStep] .failure).1.optimizedResult =
      staleOptimizedState.optimizedResult :=
  ⟨(apply_optimization_not_atomic staleOptimizedState [sampleStep] (by decide)).1 .failure,
   (apply_optimization_not_atomic staleOptimizedState [sampleStep] (by decide)).2.2.1,
   (apply_optimization_not_atomic staleOptimizedState [sampleStep] (by decide)).2.2.2⟩

/-- Claim C10: with an empty step list the run-simulation handler returns
the state unchanged and issues no call; with non-empty steps and a
credential it issues the call with run type BASELINE and no reference
metrics, and never writes the optimized slot. -/
theorem run_simulation_baseline_only (s : AppState) (outcome : SimOutcome) :
    (s.steps = [] → handleRunSimulation s outcome = (s, none)) ∧
    (s.steps ≠ [] → s.apiKey ≠ "" →
      (handleRunSimulation s outcome).2 =
        some ⟨s.apiKey, s.processName, s.steps, .BASELINE, none⟩ ∧
      (handleRunSimulation s outcome).1.optimizedResult = s.optimizedResult) := by
  constructor
  · intro h
    simp [handleRunSimulation, h]
  · intro h1 h2
    cases outcome <;> simp [handleRunSimulation, h1, h2]

/-- Witness for C10: the initial state (empty steps) is returned unchanged
with no call, and the sample state issues a BASELINE call that leaves the
optimized slot untouched. -/
theorem run_simulation_baseline_only_witness :
    handleRunSimulation initialAppState .failure = (initialAppState, none) ∧
    (handleRunSimulation staleOptimizedState .failure).2 =
      some ⟨staleOptimizedState.apiKey, staleOptimizedState.processName,
            staleOptimizedState.steps, .BASELINE, none⟩ ∧
    (handleRunSimulation staleOptimizedState .failure).1.optimizedResult =
      staleOptimizedState.optimizedResult :=
  ⟨(run_simulation_baseline_only initialAppState .failure).1 rfl,
   ((run_simulation_baseline_only staleOptimizedState .failure).2
      (by decide) (by decide)).1,
   ((run_simulation_baseline_only staleOptimizedState .failure).2
      (by decide) (by decide)).2⟩

/-- The chart entry built from a baseline metric keeps that metric name. -/
theorem chartEntryOf_name (o : SimulationResult) (m : SimMetric) :
    (chartEntryOf o m).name = m.name := by
  unfold chartEntryOf
  cases o.metrics.find? (fun x => x.name = m.name) <;> rfl

/-- Claim C9: the comparison is keyed on the baseline metrics: chart
entries and table rows are exactly the baseline metric names in order, so a
name absent from the baseline yields no entry and no row; and a baseline
metric with no optimized counterpart gets chart value 0 on the optimized
side and a delta computed with optimized value 0. -/
theorem comparison_keyed_on_baseline (b o : SimulationResult) :
    (chartData b o).map ChartEntry.name = b.metrics.map SimMetric.name ∧
    (tableRows b o).map TableRow.metricName = b.metrics.map SimMetric.name ∧
    (∀ nm, nm ∉ b.metrics.map SimMetric.name →
      (∀ e ∈ chartData b o, e.name ≠ nm) ∧
      (∀ row ∈ tableRows b o, row.metricName ≠ nm)) ∧
    (∀ bm ∈ b.metrics,
      o.metrics.find? (fun m => m.name = bm.name) = none →
        chartEntryOf o bm = ⟨bm.name, bm.value, 0, bm.unit⟩ ∧
        getDelta b o bm.name =
          (if findValue b bm.name = 0 then 0
           else ((0 - findValue b bm.name) / findValue b bm.name) * 100)) := by
  have hchart : (chartData b o).map ChartEntry.name = b.metrics.map SimMetric.name := by
    simp [chartData, List.map_map, Function.comp, chartEntryOf_name]
  have htable : (tableRows b o).map TableRow.metricName = b.metrics.map SimMetric.name := by
    simp [tableRows, List.map_map, Function.comp]
  refine ⟨hchart, htable, ?_, ?_⟩
  · intro nm hnm
    constructor
    · intro e he hen
      apply hnm
      rw [← hchart]
      exact hen ▸ List.mem_map_of_mem ChartEntry.name he
    · intro row hrow hen
      apply hnm
      rw [← htable]
      exact hen ▸ List.mem_map_of_mem TableRow.metricName hrow
  · intro bm _ hnone
    constructor
    · unfold chartEntryOf
      rw [hnone]
    · unfold getDelta findValue findMetric
      rw [hnone]
      rfl

/-- Witness for C9 on the sample results: Cost (optimized-only) has no
chart entry and no table row, and Waste (baseline-only) charts optimized 0
with a delta computed against optimized value 0. -/
theorem comparison_keyed_on_baseline_witness :
    (∀ e ∈ chartData sampleBaseline sampleOptimized, e.name ≠ "Cost") ∧
    (∀ row ∈ tableRows sampleBaseline sampleOptimized,
      row.metricName ≠ "Cost") ∧
    chartEntryOf sampleOptimized wasteMetric =
      ⟨wasteMetric.name, wasteMetric.value, 0, wasteMetric.unit⟩ ∧
    getDelta sampleBaseline sampleOptimized wasteMetric.name =
      (if findValue sampleBaseline wasteMetric.name = 0 then 0
       else ((0 - findValue sampleBaseline wasteMetric.name) /
          findValue sampleBaseline wasteMetric.name) * 100) :=
  ⟨((comparison_keyed_on_baseline sampleBaseline sampleOptimized).2.2.1
      "Cost" (by decide)).1,
   ((comparison_keyed_on_baseline sampleBaseline sampleOptimized).2.2.1
      "Cost" (by decide)).2,
   ((comparison_keyed_on_baseline sampleBaseline sampleOptimized).2.2.2
      wasteMetric (by decide) (by decide)).1,
   ((comparison_keyed_on_baseline sampleBaseline sampleOptimized).2.2.2
      wasteMetric (by decide) (by decide)).2⟩

/-- Claim C2 counterexample: an oracle reply whose two steps both carry the
non-empty id "dup" is returned with both ids still "dup": duplicated
oracle ids are not replaced, so the returned ids are not pairwise
distinct. -/
theorem parse_keeps_duplicate_ids :
    parseProcessDescription "key" (fun n => "fresh-" ++ toString n)
        (.parsed [⟨some "dup", "A", "da", none, none⟩,
                  ⟨some "dup", "B", "db", none, none⟩]) =
      .ok [⟨"dup", "A", "da", "None", ""⟩, ⟨"dup", "B", "db", "None", ""⟩] ∧
    ¬ (([⟨"dup", "A", "da", "None", ""⟩,
         ⟨"dup", "B", "db", "None", ""⟩] : List ProcessStep).map
          ProcessStep.id).Nodup := by
  refine ⟨by decide, by decide⟩

/-- The id normalizeStep assigns: the supplied non-empty id when there is
one, and the fresh identifier otherwise. -/
theorem normalizeStep_id (freshId : String) (s : RawStep) :
    (normalizeStep freshId s).id = (suppliedId s).getD freshId := by
  unfold normalizeStep suppliedId jsOrStr
  cases s.id with
  | none => rfl
  | some i => by_cases h : i = "" <;> simp [h]

/-- The supplied ids of a cons whose head supplies no id. -/
theorem suppliedIds_cons_none (s : RawStep) (rest : List RawStep)
    (hs : suppliedId s = none) :
    suppliedIds (s :: rest) = suppliedIds rest := by
  simp [suppliedIds, List.filterMap_cons, hs]

/-- The supplied ids of a cons whose head supplies the id a. -/
theorem suppliedIds_cons_some (s : RawStep) (rest : List RawStep) (a : String)
    (hs : suppliedId s = some a) :
    suppliedIds (s :: rest) = a :: suppliedIds rest := by
  simp [suppliedIds, List.filterMap_cons, hs]

/-- Every id of a normalized step list is either an oracle-supplied
non-empty id or one of the generated fresh identifiers at the consumed
indices. -/
theorem mem_normalizeSteps_ids (gen : Nat → String) (l : List RawStep) :
    ∀ (i : Nat) (x : String),
      x ∈ (normalizeSteps gen i l).map ProcessStep.id →
        x ∈ suppliedIds l ∨ x ∈ genIds gen i l.length := by
  induction l with
  | nil => intro i x hx; simp [normalizeSteps] at hx
  | cons s rest ih =>
      intro i x hx
      simp only [normalizeSteps, List.map_cons, List.mem_cons] at hx
      rcases hx with hx | hx
      · rw [normalizeStep_id] at hx
        cases hs : suppliedId s with
        | none =>
            right
            rw [hs] at hx
            simp only [List.length_cons, genIds]
            exact hx ▸ List.mem_cons_self _ _
        | some a =>
            left
            rw [hs] at hx
            rw [suppliedIds_cons_some s rest a hs]
            exact hx ▸ List.mem_cons_self _ _
      · rcases ih (i + 1) x hx with h | h
        · left
          cases hs : suppliedId s with
          | none => rw [suppliedIds_cons_none s rest hs]; exact h
          | some a =>
              rw [suppliedIds_cons_some s rest a hs]
              exact List.mem_cons_of_mem a h
        · right
          simp only [List.length_cons, genIds]
          exact List.mem_cons_of_mem _ h

/-- The normalized step ids are pairwise distinct whenever the
oracle-supplied non-empty ids are pairwise distinct, the generated fresh
identifiers for the consumed indices are pairwise distinct, and no
generated identifier collides with a supplied one. -/
theorem normalizeSteps_ids_nodup (gen : Nat → String) (l : List RawStep) :
    ∀ i : Nat, (suppliedIds l).Nodup → (genIds gen i l.length).Nodup →
      (∀ x ∈ genIds gen i l.length, x ∉ suppliedIds l) →
      ((normalizeSteps gen i l).map ProcessStep.id).Nodup := by
  induction l with
  | nil => intro i _ _ _; simp [normalizeSteps]
  | cons s rest ih =>
      intro i h1 h2 h3
      simp only [normalizeSteps, List.map_cons, List.nodup_cons]
      have hgenTail : (genIds gen (i + 1) rest.length).Nodup := by
        have := h2
        simp only [List.length_cons, genIds, List.nodup_cons] at this
        exact this.2
      have hgenHead : gen i ∉ genIds gen (i + 1) rest.length := by
        have := h2
        simp only [List.length_cons, genIds, List.nodup_cons] at this
        exact this.1
      have hsubSupp : ∀ x, x ∈ suppliedIds rest → x ∈ suppliedIds (s :: rest) := by
        intro x hx
        cases hs : suppliedId s with
        | none => rw [suppliedIds_cons_none s rest hs]; exact hx
        | some a =>
            rw [suppliedIds_cons_some s rest a hs]
            exact List.mem_cons_of_mem a hx
      have hsuppTail : (suppliedIds rest).Nodup := by
        cases hs : suppliedId s with
        | none => rw [suppliedIds_cons_none s rest hs] at h1; exact h1
        | some a =>
            rw [suppliedIds_cons_some s rest a hs, List.nodup_cons] at h1
            exact h1.2
      have h3tail : ∀ x ∈ genIds gen (i + 1) rest.length, x ∉ suppliedIds rest := by
        intro x hx hxs
        exact h3 x (by simp [genIds, hx]) (hsubSupp x hxs)
      refine ⟨?_, ih (i + 1) hsuppTail hgenTail h3tail⟩
      intro hmem
      rw [normalizeStep_id] at hmem
      rcases mem_normalizeSteps_ids gen rest (i + 1)
          ((suppliedId s).getD (gen i)) hmem with hin | hin
      · cases hs : suppliedId s with
        | none =>
            rw [hs] at hin
            simp only [Option.getD_none] at hin
            refine h3 (gen i) ?_ (hsubSupp _ hin)
            simp only [List.length_cons, genIds]
            exact List.mem_cons_self _ _
        | some a =>
            rw [hs] at hin
            simp only [Option.getD_some] at hin
            rw [suppliedIds_cons_some s rest a hs, List.nodup_cons] at h1
            exact h1.1 hin
      · cases hs : suppliedId s with
        | none =>
            rw [hs] at hin
            simp only [Option.getD_none] at hin
            exact hgenHead hin
        | some a =>
            rw [hs] at hin
            simp only [Option.getD_some] at hin
            have ha : a ∈ suppliedIds (s :: rest) := by
              rw [suppliedIds_cons_some s rest a hs]
              exact List.mem_cons_self _ _
            refine h3 a ?_ ha
            simp only [List.length_cons, genIds]
            exact List.mem_cons_of_mem _ hin

/-- Claim C2 amended: parseProcessDescription generates a fresh identifier
only where the oracle omitted the id or supplied an empty one; duplicated
non-empty ids are kept verbatim.  The returned ids are pairwise distinct
provided the oracle-supplied non-empty ids are pairwise distinct and the
fresh identifiers collide neither with one another nor with the supplied
ids. -/
theorem parse_ids_nodup (apiKey : String) (gen : Nat → String)
    (l : List RawStep) (out : List ProcessStep)
    (hk : apiKey ≠ "")
    (hout : parseProcessDescription apiKey gen (.parsed l) = .ok out)
    (h1 : (suppliedIds l).Nodup)
    (h2 : (genIds gen 0 l.length).Nodup)
    (h3 : ∀ x ∈ genIds gen 0 l.length, x ∉ suppliedIds l) :
    (out.map ProcessStep.id).Nodup := by
  have hout' : out = normalizeSteps gen 0 l := by
    simp only [parseProcessDescription, if_neg hk] at hout
    cases hout
    rfl
  rw [hout']
  exact normalizeSteps_ids_nodup gen l 0 h1 h2 h3

/-- Witness for the amended C2: a reply with one supplied id and one
missing id normalizes to pairwise-distinct ids. -/
theorem parse_ids_nodup_witness :
    (([⟨"a", "A", "da", "None", ""⟩,
       ⟨"fresh-1", "B", "db", "None", ""⟩] : List ProcessStep).map
        ProcessStep.id).Nodup :=
  parse_ids_nodup "key" (fun n => "fresh-" ++ toString n)
    [⟨some "a", "A", "da", none, none⟩, ⟨none, "B", "db", none, none⟩]
    [⟨"a", "A", "da", "None", ""⟩, ⟨"fresh-1", "B", "db", "None", ""⟩]
    (by decide) (by decide) (by decide) (by decide) (by decide)

end ProcessAI
